import Mathlib

/-!
Shallow embedding of the order-processing core of the e-commerce platform
(src/week_11/ecommerce_system): domain models (models.py), the shopping cart
(cart.py), payment strategies and the payment processor (payments.py), the
authentication service (users.py), and the orchestrating platform
(platform.py).

Modelling conventions:
- Python dicts become insertion-ordered association lists with
  first-occurrence get/set/pop (dictGet / dictSet / dictPop below).
- Python object references become ids looked up in the owning map: a
  CartItem stores the product id and every read of a product field goes
  through the platform product map, which plays the role of the heap.
  This is faithful for the operations modelled here, none of which removes
  a Product from the map.
- Decimal amounts are exact; they are modelled as integers in a fixed
  minor unit (cents), which is exact for the sums and products used.
- uuid-generated identifiers and secrets-generated one-time codes are
  modelled by a freshness counter threaded through the state and by an
  explicitly passed entropy argument: theorems quantify over the entropy.
- datetime.now is modelled by an explicit `now : Nat` argument (minutes).
- Python exceptions become an error component: each stateful operation
  returns `Except PlatformError result × state`, where the state component
  is the (possibly partially mutated) state left behind when the exception
  propagates, exactly as in-place mutation leaves it in Python.
- Persistence hooks (_persist_catalog, _persist_orders, _persist) write to
  the optional storage collaborator and do not change in-memory state;
  they are omitted.
- created_at / updated_at timestamps and the touch method only record
  wall-clock times and are read by no modelled operation; they are omitted
  from the structures.
-/

deriving instance DecidableEq for Except

namespace ECommerce

/-- Lookup of the first entry with the given key, as Python dict access. -/
def dictGet {κ α : Type} [DecidableEq κ] : List (κ × α) → κ → Option α
  | [], _ => none
  | (k, v) :: rest, key => if key = k then some v else dictGet rest key

/-- Update the first entry with the given key in place, appending a new
entry when the key is absent, as Python dict assignment. -/
def dictSet {κ α : Type} [DecidableEq κ] : List (κ × α) → κ → α → List (κ × α)
  | [], key, value => [(key, value)]
  | (k, v) :: rest, key, value =>
      if key = k then (key, value) :: rest else (k, v) :: dictSet rest key value

/-- Remove the first entry with the given key, as Python dict.pop. -/
def dictPop {κ α : Type} [DecidableEq κ] : List (κ × α) → κ → List (κ × α)
  | [], _ => []
  | (k, v) :: rest, key => if key = k then rest else (k, v) :: dictPop rest key

/-- Error taxonomy of the core: NotFoundError, ValueError, InventoryError,
PaymentError, AuthenticationError, AuthorizationError. -/
inductive PlatformError : Type
  | notFoundError (msg : String)
  | valueError (msg : String)
  | inventoryError (msg : String)
  | paymentError (msg : String)
  | authenticationError (msg : String)
  | authorizationError (msg : String)
  deriving DecidableEq, Repr

/-- Boolean success test on Except results. -/
def exceptIsOk {ε α : Type} : Except ε α → Bool
  | .ok _ => true
  | .error _ => false

/-- Category from models.py (timestamps omitted). -/
structure Category where
  name : String
  description : String
  deriving DecidableEq, Repr

/-- Product from models.py: price is an exact decimal amount in cents,
stock is an integer count. -/
structure Product where
  name : String
  price : Int
  stock : Int
  categoryId : String
  deriving DecidableEq, Repr

/-- Product.adjust_stock: refuses any adjustment that would drive the stock
negative, otherwise stores the new stock. -/
def Product.adjustStock (p : Product) (quantity : Int) : Except PlatformError Product :=
  let newStock := p.stock + quantity
  if newStock < 0 then
    .error (.inventoryError ("Insufficient stock for " ++ p.name ++ "."))
  else
    .ok { p with stock := newStock }

/-- CartItem from models.py: the product field is the reference to the live
Product, modelled as its id in the product map. -/
structure CartItem where
  productId : String
  quantity : Int
  deriving DecidableEq, Repr

/-- CartItem.line_total reads the price off the live product object; the
lookup models following the reference (always defined in Python). -/
def lineTotal (products : List (String × Product)) (item : CartItem) : Int :=
  (Option.getD (Option.map Product.price (dictGet products item.productId)) 0) * item.quantity

inductive OrderStatus : Type
  | created
  | paid
  | failed
  | shipped
  deriving DecidableEq, Repr

inductive PaymentStatus : Type
  | success
  | pending
  | failed
  deriving DecidableEq, Repr

/-- Order from models.py (timestamps omitted). -/
structure Order where
  id : String
  userId : String
  items : List CartItem
  status : OrderStatus
  paymentReference : Option String
  deriving DecidableEq, Repr

/-- Order.subtotal: sum of the line totals of the items, read against the
given product map (the heap of live Product objects). -/
def subtotalIn (products : List (String × Product)) (o : Order) : Int :=
  (o.items.map (lineTotal products)).sum

/-- Order.mark_paid. -/
def Order.markPaid (o : Order) (reference : String) : Order :=
  { o with status := .paid, paymentReference := some reference }

/-- PaymentReceipt from models.py; metadata is a string-keyed dict. -/
structure PaymentReceipt where
  orderId : String
  method : String
  amount : Int
  reference : String
  status : PaymentStatus
  metadata : List (String × String)
  deriving DecidableEq, Repr

/-- ShoppingCart from cart.py: per-user dict from product id to CartItem. -/
structure ShoppingCart where
  userId : String
  items : List (String × CartItem)
  deriving DecidableEq, Repr

/-- ShoppingCart.add_item: merge into an existing line or create one. -/
def ShoppingCart.addItem (c : ShoppingCart) (productId : String) (quantity : Int) : ShoppingCart :=
  match dictGet c.items productId with
  | some item =>
      { c with items := dictSet c.items productId { item with quantity := item.quantity + quantity } }
  | none =>
      { c with items := dictSet c.items productId { productId := productId, quantity := quantity } }

/-- ShoppingCart.remove_item: no-op when the line is absent; decrement the
line and delete it once its quantity reaches zero or below. -/
def ShoppingCart.removeItem (c : ShoppingCart) (productId : String) (quantity : Int) : ShoppingCart :=
  match dictGet c.items productId with
  | none => c
  | some item =>
      let q := item.quantity - quantity
      if q ≤ 0 then { c with items := dictPop c.items productId }
      else { c with items := dictSet c.items productId { item with quantity := q } }

/-- ShoppingCart.clear. -/
def ShoppingCart.clear (c : ShoppingCart) : ShoppingCart :=
  { c with items := [] }

/-- ShoppingCart.items: the item values in insertion order. -/
def ShoppingCart.itemsList (c : ShoppingCart) : List CartItem :=
  c.items.map Prod.snd

/-- ShoppingCart.is_empty. -/
def ShoppingCart.isEmpty (c : ShoppingCart) : Bool :=
  c.items.isEmpty

/-- Payment strategies from payments.py: CardPayment, BankTransferPayment,
UpiPayment, CashOnDeliveryPayment, each with its default attribute values
(processor VISA, Demo Bank, merchant handle, COD instructions). -/
inductive Strategy : Type
  | card
  | bankTransfer
  | upi
  | cod
  deriving DecidableEq, Repr

/-- The name attribute of each strategy. -/
def Strategy.sname : Strategy → String
  | .card => "card"
  | .bankTransfer => "bank_transfer"
  | .upi => "upi"
  | .cod => "cod"

/-- The requires_confirmation attribute of each strategy (false is the base
class default, kept by UpiPayment). -/
def Strategy.requiresConfirmation : Strategy → Bool
  | .card => true
  | .bankTransfer => true
  | .upi => false
  | .cod => true

/-- Keyword arguments read by the strategies in complete: otp (card),
transaction_id (bank transfer), delivered (cash on delivery). -/
structure Evidence where
  otp : Option String
  transactionId : Option String
  delivered : Option Bool
  deriving DecidableEq, Repr

/-- The six-digit one-time code drawn by CardPayment.pay; the entropy of
secrets.randbelow(900000) is the explicit argument rng. -/
def drawOtp (rng : Nat) : String :=
  toString (rng % 900000 + 100000)

/-- Strategy.pay: builds the receipt for an order exactly as each strategy
does. The amount is the order subtotal read against the live products; the
unique reference suffix from uuid4 is modelled by the freshness counter n. -/
def Strategy.payFor (s : Strategy) (order : Order) (products : List (String × Product))
    (n : Nat) (rng : Nat) : PaymentReceipt :=
  match s with
  | .card =>
      { orderId := order.id, method := "card", amount := subtotalIn products order,
        reference := "VISA-" ++ toString n, status := .pending,
        metadata := [("processor", "VISA"), ("challenge", "otp"), ("otp", drawOtp rng)] }
  | .bankTransfer =>
      { orderId := order.id, method := "bank_transfer", amount := subtotalIn products order,
        reference := "NEFT-" ++ toString n, status := .pending,
        metadata := [("bank", "Demo Bank")] }
  | .upi =>
      { orderId := order.id, method := "upi", amount := subtotalIn products order,
        reference := "UPI-" ++ toString n, status := .success,
        metadata := [("handle", "merchant@upi")] }
  | .cod =>
      { orderId := order.id, method := "cod", amount := subtotalIn products order,
        reference := "COD-" ++ toString n, status := .pending,
        metadata := [("instructions", "Collect cash on delivery")] }

/-- Strategy.complete: the card compares the supplied otp with the stored
one (popping the stored code only on success), the bank transfer always
succeeds recording an acknowledgement, UPI inherits the base class and
raises PaymentError, cash on delivery succeeds exactly on the delivered
flag. -/
def Strategy.completeWith (s : Strategy) (receipt : PaymentReceipt) (ev : Evidence) :
    Except PlatformError PaymentReceipt :=
  match s with
  | .card =>
      if ev.otp ≠ dictGet receipt.metadata "otp" then
        .ok { receipt with status := .failed }
      else
        .ok { receipt with
              status := .success
              metadata := dictPop (dictSet receipt.metadata "verified_at" "otp") "otp" }
  | .bankTransfer =>
      .ok { receipt with
            status := .success
            metadata := dictSet receipt.metadata "bank_ack" (ev.transactionId.getD "manual") }
  | .upi =>
      .error (.paymentError "upi does not support manual confirmation.")
  | .cod =>
      .ok { receipt with
            status := if ev.delivered.getD false then .success else .failed }

/-- PaymentProcessor from payments.py: strategy registry and stored
receipts keyed by reference. -/
structure PaymentProcessor where
  strategies : List (String × Strategy)
  transactions : List (String × PaymentReceipt)
  deriving DecidableEq, Repr

/-- PaymentProcessor.pay: look the strategy up by name, fail with a
PaymentError if unknown, invoke it and store the resulting receipt keyed
by its reference. -/
def PaymentProcessor.payWith (proc : PaymentProcessor) (method : String) (order : Order)
    (products : List (String × Product)) (n : Nat) (rng : Nat) :
    Except PlatformError (PaymentReceipt × PaymentProcessor) :=
  match dictGet proc.strategies method with
  | none => .error (.paymentError ("Payment method " ++ method ++ " is not available."))
  | some s =>
      let receipt := s.payFor order products n rng
      .ok (receipt, { proc with transactions := dictSet proc.transactions receipt.reference receipt })

/-- PaymentProcessor.complete: fail if the reference is unknown or the
owning strategy does not support confirmation; otherwise delegate to the
strategy and overwrite the stored receipt. -/
def PaymentProcessor.completeWith (proc : PaymentProcessor) (reference : String) (ev : Evidence) :
    Except PlatformError (PaymentReceipt × PaymentProcessor) :=
  match dictGet proc.transactions reference with
  | none => .error (.paymentError "Payment reference not found.")
  | some receipt =>
      match dictGet proc.strategies receipt.method with
      | none => .error (.paymentError ("Payment method " ++ receipt.method ++ " cannot be confirmed manually."))
      | some s =>
          if s.requiresConfirmation = false then
            .error (.paymentError ("Payment method " ++ receipt.method ++ " cannot be confirmed manually."))
          else
            match s.completeWith receipt ev with
            | .error e => .error e
            | .ok updated =>
                .ok (updated, { proc with transactions := dictSet proc.transactions reference updated })

/-- PaymentProcessor.get_receipt: pure lookup, failing if absent. -/
def PaymentProcessor.getReceipt (proc : PaymentProcessor) (reference : String) :
    Except PlatformError PaymentReceipt :=
  match dictGet proc.transactions reference with
  | none => .error (.paymentError "Payment reference not found.")
  | some receipt => .ok receipt

/-- ECommercePlatform state from platform.py, without the auth and storage
collaborators (the auth service is modelled separately; persistence hooks
do not change in-memory state). nextId models uuid freshness for order ids
and payment references. -/
structure ECommercePlatform where
  categories : List (String × Category)
  products : List (String × Product)
  carts : List (String × ShoppingCart)
  orders : List (String × Order)
  processor : PaymentProcessor
  nextId : Nat
  deriving DecidableEq, Repr

/-- ECommercePlatform.get_cart: get-or-create per-user cart. -/
def getCart (st : ECommercePlatform) (userId : String) : ShoppingCart × ECommercePlatform :=
  match dictGet st.carts userId with
  | some c => (c, st)
  | none =>
      let c : ShoppingCart := { userId := userId, items := [] }
      (c, { st with carts := dictSet st.carts userId c })

/-- ECommercePlatform.add_to_cart: product must exist and have stock at
least the quantity; reserve the stock, then merge the line into the cart. -/
def addToCart (st : ECommercePlatform) (userId : String) (productId : String) (quantity : Int) :
    Except PlatformError Unit × ECommercePlatform :=
  match dictGet st.products productId with
  | none => (.error (.notFoundError "Product not found."), st)
  | some product =>
      if product.stock < quantity then (.error (.valueError "Insufficient stock."), st)
      else
        match product.adjustStock (-quantity) with
        | .error e => (.error e, st)
        | .ok product1 =>
            let st1 := { st with products := dictSet st.products productId product1 }
            let (cart, st2) := getCart st1 userId
            let cart1 := cart.addItem productId quantity
            (.ok (), { st2 with carts := dictSet st2.carts userId cart1 })

/-- ECommercePlatform.remove_from_cart: remove the line from the cart, then
restock the product unconditionally when it exists in the catalog. -/
def removeFromCart (st : ECommercePlatform) (userId : String) (productId : String) (quantity : Int) :
    Except PlatformError Unit × ECommercePlatform :=
  let (cart, st1) := getCart st userId
  let st2 := { st1 with carts := dictSet st1.carts userId (cart.removeItem productId quantity) }
  match dictGet st2.products productId with
  | none => (.ok (), st2)
  | some product =>
      match product.adjustStock quantity with
      | .error e => (.error e, st2)
      | .ok product1 =>
          (.ok (), { st2 with products := dictSet st2.products productId product1 })

/-- The restock loop of the failed branches of checkout and
confirm_payment: adjust the stock of every item product in turn; an
InventoryError raised mid-loop leaves the earlier restocks in place. An
item whose product object is no longer in the catalog map is skipped: in
Python the live object is mutated but no longer observable through the
map, and no modelled operation removes products. -/
def restockItems (products : List (String × Product)) :
    List CartItem → Except PlatformError Unit × List (String × Product)
  | [] => (.ok (), products)
  | item :: rest =>
      match dictGet products item.productId with
      | none => restockItems products rest
      | some p =>
          match p.adjustStock item.quantity with
          | .error e => (.error e, products)
          | .ok p1 => restockItems (dictSet products item.productId p1) rest

/-- ECommercePlatform.checkout: reject an empty cart, snapshot the cart
items into a CREATED order, invoke the processor, then branch on the
receipt status (mark paid / mark failed and restock / leave created with
the reference), store the order and clear the cart. -/
def checkout (st : ECommercePlatform) (userId : String) (method : String) (rng : Nat) :
    Except PlatformError Order × ECommercePlatform :=
  let (cart, st0) := getCart st userId
  if cart.isEmpty then (.error (.valueError "Cart is empty."), st0)
  else
    let order : Order :=
      { id := "order-" ++ toString st0.nextId, userId := userId,
        items := cart.itemsList, status := .created, paymentReference := none }
    match st0.processor.payWith method order st0.products st0.nextId rng with
    | .error e => (.error e, st0)
    | .ok (receipt, proc) =>
        let st1 := { st0 with processor := proc, nextId := st0.nextId + 1 }
        match receipt.status with
        | .success =>
            let order1 := order.markPaid receipt.reference
            (.ok order1,
              { st1 with
                orders := dictSet st1.orders order1.id order1
                carts := dictSet st1.carts userId cart.clear })
        | .failed =>
            let order1 := { order with status := .failed, paymentReference := some receipt.reference }
            match restockItems st1.products order1.items with
            | (.error e, products1) => (.error e, { st1 with products := products1 })
            | (.ok _, products1) =>
                (.ok order1,
                  { st1 with
                    products := products1
                    orders := dictSet st1.orders order1.id order1
                    carts := dictSet st1.carts userId cart.clear })
        | .pending =>
            let order1 := { order with paymentReference := some receipt.reference }
            (.ok order1,
              { st1 with
                orders := dictSet st1.orders order1.id order1
                carts := dictSet st1.carts userId cart.clear })

/-- The scan of confirm_payment for the first order whose payment
reference matches, in insertion order, together with its key. -/
def findOrder (orders : List (String × Order)) (reference : String) : Option (String × Order) :=
  orders.find? (fun e => e.2.paymentReference = some reference)

/-- ECommercePlatform.confirm_payment: delegate to the processor, locate
the order by reference, then mark it paid, or mark it failed and restock
its items. The status write happens on the stored order before the
restock loop, as the in-place mutation does in Python. -/
def confirmPayment (st : ECommercePlatform) (reference : String) (ev : Evidence) :
    Except PlatformError Order × ECommercePlatform :=
  match st.processor.completeWith reference ev with
  | .error e => (.error e, st)
  | .ok (receipt, proc) =>
      let st1 := { st with processor := proc }
      match findOrder st1.orders reference with
      | none => (.error (.notFoundError "Order for reference not found."), st1)
      | some (oid, order) =>
          if receipt.status = .success then
            let order1 := order.markPaid reference
            (.ok order1, { st1 with orders := dictSet st1.orders oid order1 })
          else
            let order1 := { order with status := .failed }
            let st2 := { st1 with orders := dictSet st1.orders oid order1 }
            match restockItems st2.products order1.items with
            | (.error e, products1) => (.error e, { st2 with products := products1 })
            | (.ok _, products1) => (.ok order1, { st2 with products := products1 })

/-- Direct assignment to the price field of a live Product, as any
collaborator holding the object reference can perform on the mutable
dataclass (no core operation guards it). -/
def setPrice (st : ECommercePlatform) (productId : String) (newPrice : Int) : ECommercePlatform :=
  match dictGet st.products productId with
  | none => st
  | some p => { st with products := dictSet st.products productId { p with price := newPrice } }

/-- The core operations quantified over by the sequence claims. -/
inductive PlatformOp : Type
  | addToCartOp (userId : String) (productId : String) (quantity : Int)
  | removeFromCartOp (userId : String) (productId : String) (quantity : Int)
  | checkoutOp (userId : String) (method : String) (rng : Nat)
  | confirmPaymentOp (reference : String) (ev : Evidence)
  deriving DecidableEq, Repr

/-- The state left by one operation, whether it returned a result or
raised. -/
def applyOp (st : ECommercePlatform) : PlatformOp → ECommercePlatform
  | .addToCartOp u p q => (addToCart st u p q).2
  | .removeFromCartOp u p q => (removeFromCart st u p q).2
  | .checkoutOp u m rng => (checkout st u m rng).2
  | .confirmPaymentOp r ev => (confirmPayment st r ev).2

/-- The state after a finite sequence of core operations. -/
def runOps (st : ECommercePlatform) (ops : List PlatformOp) : ECommercePlatform :=
  ops.foldl applyOp st

/-- Every product in the map has non-negative stock. -/
def productsOk (l : List (String × Product)) : Bool :=
  l.all (fun e => decide (0 ≤ e.2.stock))

/-- Every product in the catalog has non-negative stock. -/
def stocksOk (st : ECommercePlatform) : Bool :=
  productsOk st.products

/-- No order in the map is in the SHIPPED status. -/
def ordersOk (l : List (String × Order)) : Bool :=
  l.all (fun e => decide (e.2.status ≠ OrderStatus.shipped))

/-- No stored order is in the SHIPPED status. -/
def noShipped (st : ECommercePlatform) : Bool :=
  ordersOk st.orders

/-- Salted password hash from users.py, in the salt-dollar-digest shape of
hash_password; the SHA-256 digest is modelled as the injective identity on
the salted input, since the claims depend only on match versus mismatch. -/
structure PasswordHash where
  salt : String
  digest : String
  deriving DecidableEq, Repr

def hashPassword (password : String) (salt : String) : PasswordHash :=
  { salt := salt, digest := salt ++ ":" ++ password }

def verifyPassword (password : String) (hashed : PasswordHash) : Bool :=
  hashed.digest = hashed.salt ++ ":" ++ password

/-- User from users.py; the role carried by the AdminUser, CustomerUser,
SupportUser and FulfillmentUser subclasses is a tag field here. Times are
minutes on an abstract wall clock. -/
structure User where
  username : String
  fullName : String
  passwordHash : PasswordHash
  active : Bool
  failedAttempts : Nat
  lockedUntil : Option Nat
  id : String
  role : String
  deriving DecidableEq, Repr

/-- User.is_locked at the given wall-clock time: locked_until is set and
still strictly in the future. -/
def User.isLocked (u : User) (now : Nat) : Bool :=
  match u.lockedUntil with
  | some t => now < t
  | none => false

/-- User.register_failed_login: bump the counter; at the threshold start
the lock and reset the counter to zero. -/
def User.registerFailedLogin (u : User) (maxAttempts : Nat) (lockDuration : Nat) (now : Nat) : User :=
  let u1 := { u with failedAttempts := u.failedAttempts + 1 }
  if maxAttempts ≤ u1.failedAttempts then
    { u1 with lockedUntil := some (now + lockDuration), failedAttempts := 0 }
  else u1

/-- User.reset_lock. -/
def User.resetLock (u : User) : User :=
  { u with failedAttempts := 0, lockedUntil := none }

/-- AuthService state from users.py: username-keyed users and
token-to-user-id sessions. nextToken models secrets.token_urlsafe
freshness. -/
structure AuthService where
  users : List (String × User)
  sessions : List (String × String)
  nextToken : Nat
  deriving DecidableEq, Repr

/-- AuthService.MAX_FAILED_ATTEMPTS. -/
def MAX_FAILED_ATTEMPTS : Nat := 5

/-- AuthService.LOCK_DURATION: fifteen minutes. -/
def LOCK_DURATION : Nat := 15

/-- AuthService.login at wall-clock time now: absent or inactive user and
password mismatch fail with invalid credentials (the mismatch registering
a failed attempt), a locked account fails before the password is checked,
and success clears the lock state and issues a fresh session token. -/
def AuthService.login (as : AuthService) (username : String) (password : String) (now : Nat) :
    Except PlatformError String × AuthService :=
  match dictGet as.users username with
  | none => (.error (.authenticationError "Invalid credentials."), as)
  | some user =>
      if user.active = false then
        (.error (.authenticationError "Invalid credentials."), as)
      else if user.isLocked now then
        (.error (.authenticationError "Account temporarily locked."), as)
      else if verifyPassword password user.passwordHash = false then
        let user1 := user.registerFailedLogin MAX_FAILED_ATTEMPTS LOCK_DURATION now
        (.error (.authenticationError "Invalid credentials."),
          { as with users := dictSet as.users username user1 })
      else
        let user1 := user.resetLock
        let token := "token-" ++ toString as.nextToken
        (.ok token,
          { as with
            users := dictSet as.users username user1
            sessions := dictSet as.sessions token user1.id
            nextToken := as.nextToken + 1 })

/-- AuthService.unlock_user: admin-only reset of the lock state. -/
def AuthService.unlockUser (as : AuthService) (username : String) (actingUser : User) :
    Except PlatformError AuthService :=
  if actingUser.role ≠ "admin" then
    .error (.authorizationError "Administrator privileges required.")
  else
    match dictGet as.users username with
    | none => .error (.authenticationError "User not found.")
    | some user => .ok { as with users := dictSet as.users username user.resetLock }

/-- The auth state left by a chain of login attempts with one password at
the given sequence of times. -/
def loginRun (as : AuthService) (username : String) (password : String) (times : List Nat) :
    AuthService :=
  times.foldl (fun s t => (s.login username password t).2) as

/-! Concrete states used to exercise the definitions: a platform wired as
bootstrap_platform wires it (all four strategies registered under their
names), one category, one product with stock 2 priced 30.00, and one
customer cart. -/

def demoProduct : Product := { name := "Lamp", price := 3000, stock := 2, categoryId := "c1" }

def demoPlatform : ECommercePlatform :=
  { categories := [("c1", { name := "Home", description := "Home goods" })]
    products := [("p1", demoProduct)]
    carts := [("alice", { userId := "alice", items := [] })]
    orders := []
    processor :=
      { strategies :=
          [("card", Strategy.card), ("bank_transfer", Strategy.bankTransfer),
           ("upi", Strategy.upi), ("cod", Strategy.cod)]
        transactions := [] }
    nextId := 0 }

/-- Evidence with no keyword arguments supplied. -/
def evEmpty : Evidence := { otp := none, transactionId := none, delivered := none }

/-- Fallback order value for total extraction helpers. -/
def fallbackOrder : Order :=
  { id := "", userId := "", items := [], status := .created, paymentReference := none }

/-- The receipt status produced by a processor confirmation, when any. -/
def completeStatus (proc : PaymentProcessor) (reference : String) (ev : Evidence) :
    Option PaymentStatus :=
  match proc.completeWith reference ev with
  | .ok (r, _) => some r.status
  | .error _ => none

/-- The processor state left by a confirmation (unchanged when it raised). -/
def completeState (proc : PaymentProcessor) (reference : String) (ev : Evidence) :
    PaymentProcessor :=
  match proc.completeWith reference ev with
  | .ok (_, p) => p
  | .error _ => proc

/-- The stock of one product as observable through the catalog map. -/
def stockOf (st : ECommercePlatform) (pid : String) : Int :=
  (Option.map Product.stock (dictGet st.products pid)).getD 0

/-- The total quantity of one product held across all carts. -/
def qtyInCarts (st : ECommercePlatform) (pid : String) : Int :=
  (st.carts.map (fun e =>
    (e.2.items.map (fun i => if i.2.productId = pid then i.2.quantity else 0)).sum)).sum

/-- The total quantity of one product held in orders whose payment is
still pending (status CREATED). -/
def qtyInPendingOrders (st : ECommercePlatform) (pid : String) : Int :=
  (st.orders.map (fun e =>
    if e.2.status = OrderStatus.created then
      (e.2.items.map (fun it => if it.productId = pid then it.quantity else 0)).sum
    else 0)).sum

/-- The conserved quantity of the stock-conservation claim: stock plus
quantities reserved in carts or in pending orders. -/
def conservedQty (st : ECommercePlatform) (pid : String) : Int :=
  stockOf st pid + qtyInCarts st pid + qtyInPendingOrders st pid

/-! Association-list lemmas: first-occurrence get, set and pop behave like
pointwise function update regardless of key duplication. -/

theorem dictGet_dictSet_self {κ α : Type} [DecidableEq κ] (l : List (κ × α)) (k : κ) (v : α) :
    dictGet (dictSet l k v) k = some v := by
  induction l with
  | nil => simp [dictGet, dictSet]
  | cons e rest ih =>
      by_cases h : k = e.1
      · simp [dictGet, dictSet, h]
      · simp [dictGet, dictSet, h, ih]

theorem dictGet_dictSet_ne {κ α : Type} [DecidableEq κ] (l : List (κ × α)) (k k' : κ) (v : α)
    (h : k' ≠ k) : dictGet (dictSet l k v) k' = dictGet l k' := by
  induction l with
  | nil => simp [dictGet, dictSet, h]
  | cons e rest ih =>
      by_cases he : k = e.1
      · subst he
        simp [dictGet, dictSet, h]
      · by_cases he' : k' = e.1
        · simp [dictGet, dictSet, he, he']
        · simp [dictGet, dictSet, he, he', ih]

theorem mem_dictSet {κ α : Type} [DecidableEq κ] (l : List (κ × α)) (k : κ) (v : α)
    (a : κ × α) (ha : a ∈ dictSet l k v) : a = (k, v) ∨ a ∈ l := by
  induction l with
  | nil => simpa [dictSet] using ha
  | cons e rest ih =>
      by_cases h : k = e.1
      · simp only [dictSet, if_pos h, List.mem_cons] at ha
        rcases ha with ha | ha
        · exact Or.inl ha
        · exact Or.inr (List.mem_cons_of_mem _ ha)
      · simp only [dictSet, if_neg h, List.mem_cons] at ha
        rcases ha with ha | ha
        · exact Or.inr (by simp [ha])
        · rcases ih ha with h' | h'
          · exact Or.inl h'
          · exact Or.inr (List.mem_cons_of_mem _ h')

theorem all_dictSet {κ α : Type} [DecidableEq κ] (f : κ × α → Bool) (l : List (κ × α))
    (k : κ) (v : α) (hl : l.all f = true) (hv : f (k, v) = true) :
    (dictSet l k v).all f = true := by
  rw [List.all_eq_true] at hl ⊢
  intro a ha
  rcases mem_dictSet l k v a ha with h | h
  · rw [h]; exact hv
  · exact hl a h

/-! Stock non-negativity: every write into the product map goes through
adjust_stock, whose guard refuses a negative result. -/

theorem adjustStock_ok_nonneg (p : Product) (q : Int) (p' : Product)
    (h : p.adjustStock q = .ok p') : 0 ≤ p'.stock := by
  unfold Product.adjustStock at h
  by_cases hc : p.stock + q < 0
  · simp [hc] at h
  · simp [hc] at h
    rw [← h]
    show 0 ≤ p.stock + q
    omega

theorem adjustStock_ok_stock (p : Product) (q : Int) (p' : Product)
    (h : p.adjustStock q = .ok p') : p'.stock = p.stock + q := by
  unfold Product.adjustStock at h
  by_cases hc : p.stock + q < 0
  · simp [hc] at h
  · simp [hc] at h
    rw [← h]

theorem productsOk_dictSet (l : List (String × Product)) (k : String) (v : Product)
    (hl : productsOk l = true) (hv : 0 ≤ v.stock) : productsOk (dictSet l k v) = true :=
  all_dictSet _ l k v hl (by simpa using hv)

theorem restockItems_productsOk (items : List CartItem) (l : List (String × Product))
    (hl : productsOk l = true) : productsOk (restockItems l items).2 = true := by
  induction items generalizing l with
  | nil => simpa [restockItems] using hl
  | cons it rest ih =>
      unfold restockItems
      split
      · exact ih l hl
      · rename_i p hp
        split
        · exact hl
        · rename_i p1 ha
          exact ih _ (productsOk_dictSet l it.productId p1 hl
            (adjustStock_ok_nonneg p it.quantity p1 ha))

theorem getCart_products (st : ECommercePlatform) (u : String) :
    (getCart st u).2.products = st.products := by
  unfold getCart
  cases dictGet st.carts u <;> rfl

theorem getCart_orders (st : ECommercePlatform) (u : String) :
    (getCart st u).2.orders = st.orders := by
  unfold getCart
  cases dictGet st.carts u <;> rfl

theorem addToCart_products_ok (st : ECommercePlatform) (u pid : String) (q : Int)
    (h : stocksOk st = true) : stocksOk (addToCart st u pid q).2 = true := by
  unfold addToCart
  cases hp : dictGet st.products pid with
  | none => simpa using h
  | some p =>
      by_cases hq : p.stock < q
      · simpa [hq] using h
      · cases ha : p.adjustStock (-q) with
        | error e => simpa [hq, ha] using h
        | ok p1 =>
            rcases hgc : getCart { st with products := dictSet st.products pid p1 } u
              with ⟨cart, st2⟩
            have h2 : st2.products = dictSet st.products pid p1 := by
              have := congrArg (fun x => x.2.products) hgc
              simpa [getCart_products] using this.symm
            simp only [hq, if_neg hq, ha, hgc, stocksOk]
            simpa [h2] using productsOk_dictSet st.products pid p1 h
              (adjustStock_ok_nonneg p (-q) p1 ha)

theorem removeFromCart_products_ok (st : ECommercePlatform) (u pid : String) (q : Int)
    (h : stocksOk st = true) : stocksOk (removeFromCart st u pid q).2 = true := by
  unfold removeFromCart
  rcases hgc : getCart st u with ⟨cart, st1⟩
  have h1 : st1.products = st.products := by
    have h2 := congrArg (fun x => x.2.products) hgc
    simpa [getCart_products] using h2.symm
  simp only [hgc]
  split
  · simpa [stocksOk, h1] using h
  · rename_i p hp
    split
    · simpa [stocksOk, h1] using h
    · rename_i p1 ha
      simp only [stocksOk]
      have h3 : productsOk st1.products = true := by rw [h1]; exact h
      simpa using productsOk_dictSet _ pid p1 h3 (adjustStock_ok_nonneg p q p1 ha)

theorem checkout_products_ok (st : ECommercePlatform) (u method : String) (rng : Nat)
    (h : stocksOk st = true) : stocksOk (checkout st u method rng).2 = true := by
  unfold checkout
  rcases hgc : getCart st u with ⟨cart, st0⟩
  have h0 : st0.products = st.products := by
    have h2 := congrArg (fun x => x.2.products) hgc
    simpa [getCart_products] using h2.symm
  have hok : productsOk st0.products = true := by rw [h0]; exact h
  simp only [hgc]
  split
  · simpa [stocksOk] using hok
  · split
    · simpa [stocksOk] using hok
    · split
      · simpa [stocksOk] using hok
      · split
        · rename_i e products1 hr
          have h4 := restockItems_productsOk cart.itemsList st0.products hok
          rw [hr] at h4
          simpa [stocksOk] using h4
        · rename_i u1 products1 hr
          have h4 := restockItems_productsOk cart.itemsList st0.products hok
          rw [hr] at h4
          simpa [stocksOk] using h4
      · simpa [stocksOk] using hok

theorem confirmPayment_products_ok (st : ECommercePlatform) (ref : String) (ev : Evidence)
    (h : stocksOk st = true) : stocksOk (confirmPayment st ref ev).2 = true := by
  unfold confirmPayment
  rcases hcw : st.processor.completeWith ref ev with e | ⟨receipt, proc⟩
  · simpa [hcw] using h
  · simp only [hcw]
    rcases hf : findOrder st.orders ref with _ | ⟨oid, order⟩
    · simpa [hf, stocksOk] using h
    · simp only [hf]
      by_cases hs : receipt.status = PaymentStatus.success
      · simpa [hs, stocksOk] using h
      · simp only [hs, if_neg hs]
        rcases hr : restockItems st.products ({ order with status := OrderStatus.failed }).items
          with ⟨res, products1⟩
        have h4 := restockItems_productsOk ({ order with status := OrderStatus.failed }).items
          st.products h
        rw [hr] at h4
        cases res <;> simpa [hr, stocksOk] using h4

theorem applyOp_stocksOk (st : ECommercePlatform) (op : PlatformOp)
    (h : stocksOk st = true) : stocksOk (applyOp st op) = true := by
  cases op with
  | addToCartOp u p q => exact addToCart_products_ok st u p q h
  | removeFromCartOp u p q => exact removeFromCart_products_ok st u p q h
  | checkoutOp u m rng => exact checkout_products_ok st u m rng h
  | confirmPaymentOp r ev => exact confirmPayment_products_ok st r ev h

/-! The order status state machine: no operation stores an order in the
SHIPPED status, and which statuses each branch writes. -/

theorem ordersOk_dictSet (l : List (String × Order)) (k : String) (v : Order)
    (hl : ordersOk l = true) (hv : v.status ≠ OrderStatus.shipped) :
    ordersOk (dictSet l k v) = true :=
  all_dictSet _ l k v hl (by simpa using hv)

theorem addToCart_orders_eq (st : ECommercePlatform) (u pid : String) (q : Int) :
    (addToCart st u pid q).2.orders = st.orders := by
  unfold addToCart
  rcases hp : dictGet st.products pid with _ | p
  · rfl
  · simp only [hp]
    by_cases hq : p.stock < q
    · simp [hq]
    · simp only [hq, if_neg hq]
      rcases ha : p.adjustStock (-q) with e | p1
      · simp
      · simp only []
        rcases hgc : getCart { st with products := dictSet st.products pid p1 } u with ⟨cart, st2⟩
        simp only [hgc]
        have h2 := congrArg (fun x => x.2.orders) hgc
        simpa [getCart_orders] using h2.symm

theorem removeFromCart_orders_eq (st : ECommercePlatform) (u pid : String) (q : Int) :
    (removeFromCart st u pid q).2.orders = st.orders := by
  unfold removeFromCart
  rcases hgc : getCart st u with ⟨cart, st1⟩
  have h1 : st1.orders = st.orders := by
    have h2 := congrArg (fun x => x.2.orders) hgc
    simpa [getCart_orders] using h2.symm
  simp only [hgc]
  split
  · simpa using h1
  · split
    · simpa using h1
    · simpa using h1

theorem checkout_noShipped (st : ECommercePlatform) (u method : String) (rng : Nat)
    (h : noShipped st = true) : noShipped (checkout st u method rng).2 = true := by
  unfold checkout
  rcases hgc : getCart st u with ⟨cart, st0⟩
  have h0 : st0.orders = st.orders := by
    have h2 := congrArg (fun x => x.2.orders) hgc
    simpa [getCart_orders] using h2.symm
  have hok : ordersOk st0.orders = true := by rw [h0]; exact h
  simp only [hgc]
  split
  · simpa [noShipped] using hok
  · split
    · simpa [noShipped] using hok
    · split
      · simp only [noShipped]
        exact ordersOk_dictSet _ _ _ hok (by simp [Order.markPaid])
      · split
        · simpa [noShipped] using hok
        · simp only [noShipped]
          exact ordersOk_dictSet _ _ _ hok (by simp)
      · simp only [noShipped]
        exact ordersOk_dictSet _ _ _ hok (by simp)

theorem confirmPayment_noShipped (st : ECommercePlatform) (ref : String) (ev : Evidence)
    (h : noShipped st = true) : noShipped (confirmPayment st ref ev).2 = true := by
  unfold confirmPayment
  rcases hcw : st.processor.completeWith ref ev with e | ⟨receipt, proc⟩
  · simpa using h
  · simp only [hcw]
    rcases hf : findOrder st.orders ref with _ | ⟨oid, order⟩
    · simpa [hf, noShipped] using h
    · simp only [hf]
      by_cases hs : receipt.status = PaymentStatus.success
      · simp only [hs, if_pos hs, noShipped]
        exact ordersOk_dictSet _ _ _ h (by simp [Order.markPaid])
      · simp only [hs, if_neg hs]
        rcases hr : restockItems st.products ({ order with status := OrderStatus.failed }).items
          with ⟨res, products1⟩
        cases res <;> simp only [hr, noShipped] <;>
          exact ordersOk_dictSet _ _ _ h (by simp)

theorem applyOp_noShipped (st : ECommercePlatform) (op : PlatformOp)
    (h : noShipped st = true) : noShipped (applyOp st op) = true := by
  cases op with
  | addToCartOp u p q =>
      simpa [applyOp, noShipped, addToCart_orders_eq] using h
  | removeFromCartOp u p q =>
      simpa [applyOp, noShipped, removeFromCart_orders_eq] using h
  | checkoutOp u m rng => exact checkout_noShipped st u m rng h
  | confirmPaymentOp r ev => exact confirmPayment_noShipped st r ev h

/-! Concrete traces exercising the card-payment confirmation paths. -/

/-- Reserve one unit, check out by card (one-time code 100007), then fail
the confirmation once with a wrong code: the stored order is FAILED. -/
def c1Trace1 : ECommercePlatform :=
  runOps demoPlatform
    [ .addToCartOp "alice" "p1" 1, .checkoutOp "alice" "card" 7,
      .confirmPaymentOp "VISA-0" { evEmpty with otp := some "000000" } ]

/-- Retry the confirmation of the same reference with the stored code. -/
def c1Trace2 : ECommercePlatform :=
  applyOp c1Trace1 (.confirmPaymentOp "VISA-0" { evEmpty with otp := some "100007" })

/-- The failed order stored in c1Trace1. -/
def c1FailedOrder : Order :=
  { id := "order-0", userId := "alice", items := [{ productId := "p1", quantity := 1 }],
    status := .failed, paymentReference := some "VISA-0" }

/-- The failed card receipt stored in c1Trace1: the one-time code is still
present in its metadata. -/
def c1FailedReceipt : PaymentReceipt :=
  { orderId := "order-0", method := "card", amount := 3000, reference := "VISA-0",
    status := .failed,
    metadata := [("processor", "VISA"), ("challenge", "otp"), ("otp", "100007")] }

/-- C1, counterexample: in the reachable state c1Trace1 the stored order is
FAILED, and one further confirm_payment call on its payment reference with
the stored one-time code changes its status to PAID — so FAILED is not a
terminal status, contrary to the claim. -/
theorem c1_failed_order_becomes_paid :
    Option.map Order.status (dictGet c1Trace1.orders "order-0") = some OrderStatus.failed
    ∧ Option.map Order.status (dictGet c1Trace2.orders "order-0") = some OrderStatus.paid := by
  decide

/-- C1, amended: (1) no core operation ever stores an order in the SHIPPED
status, so SHIPPED is vacuously terminal; (2) FAILED is not terminal: when
the stored receipt of a reference is a card receipt whose metadata still
carries the one-time code and the supplied code matches it, confirm_payment
marks the first order carrying that reference PAID even when that order is
already FAILED. -/
theorem c1_shipped_unreachable_failed_reconfirmable :
    (∀ (st : ECommercePlatform) (op : PlatformOp),
        noShipped st = true → noShipped (applyOp st op) = true)
    ∧ (∀ (st : ECommercePlatform) (ref : String) (ev : Evidence) (r : PaymentReceipt)
        (oid : String) (o : Order),
        dictGet st.processor.transactions ref = some r →
        r.method = "card" →
        dictGet st.processor.strategies "card" = some Strategy.card →
        ev.otp = dictGet r.metadata "otp" →
        findOrder st.orders ref = some (oid, o) →
        o.status = OrderStatus.failed →
        (confirmPayment st ref ev).1 = .ok (o.markPaid ref)
        ∧ dictGet (confirmPayment st ref ev).2.orders oid = some (o.markPaid ref)) := by
  constructor
  · exact applyOp_noShipped
  · intro st ref ev r oid o hr hm hcs hotp hf hst
    have hcw : st.processor.completeWith ref ev
        = .ok ({ r with
                 status := .success
                 metadata := dictPop (dictSet r.metadata "verified_at" "otp") "otp" },
               { st.processor with
                 transactions := dictSet st.processor.transactions ref
                   { r with
                     status := .success
                     metadata := dictPop (dictSet r.metadata "verified_at" "otp") "otp" } }) := by
      unfold PaymentProcessor.completeWith
      rw [hr]
      simp only [hm, hcs]
      simp [Strategy.requiresConfirmation, Strategy.completeWith, hotp, hm]
    constructor
    · unfold confirmPayment
      rw [hcw]
      simp [hf]
    · unfold confirmPayment
      rw [hcw]
      simp [hf, dictGet_dictSet_self]

/-- C1, witness: the SHIPPED-preservation part at a concrete state and
operation, and the FAILED-to-PAID part at the concrete trace in which the
order "order-0" is FAILED. -/
theorem c1_witness :
    (noShipped (applyOp demoPlatform (.addToCartOp "alice" "p1" 1)) = true)
    ∧ ((confirmPayment c1Trace1 "VISA-0" { evEmpty with otp := some "100007" }).1
          = .ok (c1FailedOrder.markPaid "VISA-0")
       ∧ dictGet (confirmPayment c1Trace1 "VISA-0"
            { evEmpty with otp := some "100007" }).2.orders "order-0"
          = some (c1FailedOrder.markPaid "VISA-0")) :=
  ⟨c1_shipped_unreachable_failed_reconfirmable.1 demoPlatform
      (.addToCartOp "alice" "p1" 1) (by decide),
   c1_shipped_unreachable_failed_reconfirmable.2 c1Trace1 "VISA-0"
      { evEmpty with otp := some "100007" } c1FailedReceipt "order-0" c1FailedOrder
      (by decide) (by decide) (by decide) (by decide) (by decide) (by decide)⟩

/-- C5: starting from any state in which every product stock is
non-negative, every finite sequence of add-to-cart, remove-from-cart,
checkout and confirm-payment operations leaves every product stock
non-negative (instantiating the sequence at each prefix gives the claim
after each operation). -/
theorem c5_stock_nonneg_after_sequences (st : ECommercePlatform) (ops : List PlatformOp)
    (hs : stocksOk st = true) : stocksOk (runOps st ops) = true := by
  induction ops generalizing st with
  | nil => simpa [runOps] using hs
  | cons op rest ih =>
      have h1 := applyOp_stocksOk st op hs
      simpa [runOps, List.foldl_cons] using ih (applyOp st op) h1

/-- C5, witness: a concrete operation sequence including phantom removal,
non-positive quantities, a card checkout and a failed confirmation. -/
theorem c5_witness :
    stocksOk demoPlatform = true
    ∧ stocksOk (runOps demoPlatform
        [ .addToCartOp "alice" "p1" 1, .removeFromCartOp "alice" "p1" 5,
          .addToCartOp "alice" "p1" (-2), .addToCartOp "alice" "p1" 2,
          .checkoutOp "alice" "card" 7,
          .confirmPaymentOp "VISA-0" { evEmpty with otp := some "000000" },
          .removeFromCartOp "bob" "p1" 1 ]) = true :=
  ⟨by decide,
   c5_stock_nonneg_after_sequences demoPlatform
     [ .addToCartOp "alice" "p1" 1, .removeFromCartOp "alice" "p1" 5,
       .addToCartOp "alice" "p1" (-2), .addToCartOp "alice" "p1" 2,
       .checkoutOp "alice" "card" 7,
       .confirmPaymentOp "VISA-0" { evEmpty with otp := some "000000" },
       .removeFromCartOp "bob" "p1" 1 ] (by decide)⟩

/-! Card confirmation: match semantics and retry behaviour. -/

/-- The processor state holding the pending card receipt of a checkout. -/
def c3Proc : PaymentProcessor :=
  (runOps demoPlatform [.addToCartOp "alice" "p1" 1, .checkoutOp "alice" "card" 7]).processor

/-- C3, counterexample: after one failed confirmation attempt on a pending
card receipt, a second attempt on the same reference with the correct code
succeeds — the one-time code is not consumed by a failed attempt, contrary
to the no-retries claim. -/
theorem c3_failed_attempt_allows_retry :
    completeStatus c3Proc "VISA-0" { evEmpty with otp := some "000000" } = some .failed
    ∧ completeStatus (completeState c3Proc "VISA-0" { evEmpty with otp := some "000000" })
        "VISA-0" { evEmpty with otp := some "100007" } = some .success := by
  decide

/-- C3, amended: confirmation of a card receipt succeeds exactly when the
supplied code equals the stored one-time code and otherwise marks the
receipt FAILED; but the code is consumed only on success — a failed attempt
leaves the receipt metadata (and so the code) unchanged, and a later
attempt on the same reference with the matching code succeeds. -/
theorem c3_card_code_match_no_consumption_on_failure :
    (∀ (r : PaymentReceipt) (ev : Evidence),
        r.status = PaymentStatus.pending →
        ev.otp = dictGet r.metadata "otp" →
        Strategy.card.completeWith r ev
          = .ok { r with
                  status := .success
                  metadata := dictPop (dictSet r.metadata "verified_at" "otp") "otp" })
    ∧ (∀ (r : PaymentReceipt) (ev : Evidence),
        r.status = PaymentStatus.pending →
        ev.otp ≠ dictGet r.metadata "otp" →
        Strategy.card.completeWith r ev = .ok { r with status := .failed })
    ∧ (∀ (proc : PaymentProcessor) (ref : String) (r : PaymentReceipt) (ev1 ev2 : Evidence),
        dictGet proc.transactions ref = some r →
        r.method = "card" →
        dictGet proc.strategies "card" = some Strategy.card →
        r.status = PaymentStatus.pending →
        ev1.otp ≠ dictGet r.metadata "otp" →
        ev2.otp = dictGet r.metadata "otp" →
        completeStatus proc ref ev1 = some .failed
        ∧ dictGet (completeState proc ref ev1).transactions ref
            = some { r with status := .failed }
        ∧ completeStatus (completeState proc ref ev1) ref ev2 = some .success) := by
  refine ⟨?_, ?_, ?_⟩
  · intro r ev hpend hotp
    simp [Strategy.completeWith, hotp]
  · intro r ev hpend hotp
    simp [Strategy.completeWith, hotp]
  · intro proc ref r ev1 ev2 hr hm hcs hpend hne hmatch
    have h1 : proc.completeWith ref ev1
        = .ok ({ r with status := .failed },
               { proc with
                 transactions := dictSet proc.transactions ref { r with status := .failed } }) := by
      unfold PaymentProcessor.completeWith
      rw [hr]
      simp only [hm, hcs]
      simp [Strategy.requiresConfirmation, Strategy.completeWith, hne, hm]
    have h2 : completeState proc ref ev1
        = { proc with
            transactions := dictSet proc.transactions ref { r with status := .failed } } := by
      unfold completeState
      rw [h1]
    refine ⟨?_, ?_, ?_⟩
    · unfold completeStatus
      rw [h1]
    · rw [h2]
      simpa using dictGet_dictSet_self proc.transactions ref { r with status := .failed }
    · rw [h2]
      unfold completeStatus PaymentProcessor.completeWith
      rw [show ({ proc with
            transactions := dictSet proc.transactions ref
              { r with status := .failed } } : PaymentProcessor).transactions
          = dictSet proc.transactions ref { r with status := .failed } from rfl]
      rw [dictGet_dictSet_self]
      simp only [hm, hcs]
      simp [Strategy.requiresConfirmation, Strategy.completeWith, hmatch]

/-- C3, witness: the retry part instantiated on the concrete pending card
receipt of a checkout from the demo platform. -/
theorem c3_witness :
    completeStatus c3Proc "VISA-0" { evEmpty with otp := some "111111" } = some .failed
    ∧ dictGet (completeState c3Proc "VISA-0" { evEmpty with otp := some "111111" }).transactions
        "VISA-0"
      = some { orderId := "order-0", method := "card", amount := 3000, reference := "VISA-0",
               status := .failed,
               metadata := [("processor", "VISA"), ("challenge", "otp"), ("otp", "100007")] }
    ∧ completeStatus (completeState c3Proc "VISA-0" { evEmpty with otp := some "111111" })
        "VISA-0" { evEmpty with otp := some "100007" } = some .success :=
  c3_card_code_match_no_consumption_on_failure.2.2 c3Proc "VISA-0"
    { orderId := "order-0", method := "card", amount := 3000, reference := "VISA-0",
      status := .pending,
      metadata := [("processor", "VISA"), ("challenge", "otp"), ("otp", "100007")] }
    { evEmpty with otp := some "111111" } { evEmpty with otp := some "100007" }
    (by decide) (by decide) (by decide) (by decide) (by decide) (by decide)

/-- C4: stock conservation, refuted by the code at a concrete input: with
the product stock at 2 and the cart of alice empty, remove_from_cart of
quantity 3 succeeds and raises the conserved quantity (stock plus reserved
in carts and pending orders) from 2 to 5 — the platform restocks a
quantity that was never reserved because it calls adjust_stock
unconditionally after the cart layer silently ignored the absent line. -/
theorem c4_phantom_restock :
    conservedQty demoPlatform "p1" = 2
    ∧ (removeFromCart demoPlatform "alice" "p1" 3).1 = .ok ()
    ∧ conservedQty (removeFromCart demoPlatform "alice" "p1" 3).2 "p1" = 5
    ∧ Option.map Product.stock
        (dictGet (removeFromCart demoPlatform "alice" "p1" 3).2.products "p1") = some 5 := by
  decide

/-! Order snapshots and live price aliasing. -/

/-- The net quantity of one product referenced by an order. -/
def qtyOfProduct (o : Order) (pid : String) : Int :=
  (o.items.map (fun it => if it.productId = pid then it.quantity else 0)).sum

theorem lineTotal_setPrice (products : List (String × Product)) (pid : String) (p : Product)
    (v : Int) (hp : dictGet products pid = some p) (it : CartItem) :
    lineTotal (dictSet products pid { p with price := v }) it
      = lineTotal products it
        + (v - p.price) * (if it.productId = pid then it.quantity else 0) := by
  by_cases h : it.productId = pid
  · simp only [lineTotal, h, dictGet_dictSet_self, hp, if_pos]
    simp
    ring
  · simp [lineTotal, h, dictGet_dictSet_ne products pid it.productId _ h]

theorem subtotal_setPrice_shift (products : List (String × Product)) (pid : String) (p : Product)
    (v : Int) (hp : dictGet products pid = some p) (items : List CartItem) :
    (items.map (lineTotal (dictSet products pid { p with price := v }))).sum
      = (items.map (lineTotal products)).sum
        + (v - p.price) * (items.map (fun it => if it.productId = pid then it.quantity else 0)).sum := by
  induction items with
  | nil => simp
  | cons it rest ih =>
      simp only [List.map_cons, List.sum_cons]
      rw [ih, lineTotal_setPrice products pid p v hp it]
      ring

/-- The base state of the price-aliasing trace: one unit of p1 reserved
and checked out through UPI, leaving a PAID order. -/
def c2Base : ECommercePlatform :=
  runOps demoPlatform [.addToCartOp "alice" "p1" 1, .checkoutOp "alice" "upi" 0]

/-- The same state after the live price of p1 is raised from 3000 to 4500. -/
def c2After : ECommercePlatform := setPrice c2Base "p1" 4500

/-- C2, counterexample: the order stored by checkout has subtotal 3000 at
creation, but after a change to the live price of the product it
references its recomputed subtotal is 4500 — price mutations of live
products do alter existing orders, contrary to the claim. -/
theorem c2_price_change_alters_subtotal :
    Option.map (subtotalIn c2Base.products) (dictGet c2Base.orders "order-0") = some 3000
    ∧ Option.map (subtotalIn c2After.products) (dictGet c2After.orders "order-0") = some 4500
    ∧ dictGet c2After.orders "order-0" = dictGet c2Base.orders "order-0" := by
  decide

/-- C2, amended: a later price mutation of a live product leaves every
stored order entry itself unchanged — its item list and quantities are
fixed — but the subtotal of an order is recomputed through the live
product references, so the price change shifts a recomputed subtotal by
exactly the price difference times the net quantity of that product in
the order (in particular it does alter the subtotal whenever that net
quantity is non-zero). -/
theorem c2_items_fixed_subtotal_tracks_live_price :
    (∀ (st : ECommercePlatform) (pid : String) (v : Int),
        (setPrice st pid v).orders = st.orders ∧ (setPrice st pid v).carts = st.carts)
    ∧ (∀ (st : ECommercePlatform) (pid : String) (p : Product) (v : Int) (o : Order),
        dictGet st.products pid = some p →
        subtotalIn (setPrice st pid v).products o
          = subtotalIn st.products o + (v - p.price) * qtyOfProduct o pid) := by
  constructor
  · intro st pid v
    unfold setPrice
    cases dictGet st.products pid <;> simp
  · intro st pid p v o hp
    unfold setPrice
    rw [hp]
    simpa [subtotalIn, qtyOfProduct] using
      subtotal_setPrice_shift st.products pid p v hp o.items

/-- C2, witness: the shift law instantiated on the stored PAID order of
the concrete trace, with the price raised from 3000 to 4500. -/
theorem c2_witness :
    subtotalIn (setPrice c2Base "p1" 4500).products
        { id := "order-0", userId := "alice", items := [{ productId := "p1", quantity := 1 }],
          status := .paid, paymentReference := some "UPI-0" }
      = subtotalIn c2Base.products
          { id := "order-0", userId := "alice", items := [{ productId := "p1", quantity := 1 }],
            status := .paid, paymentReference := some "UPI-0" }
        + (4500 - 3000)
          * qtyOfProduct
              { id := "order-0", userId := "alice",
                items := [{ productId := "p1", quantity := 1 }],
                status := .paid, paymentReference := some "UPI-0" } "p1" :=
  c2_items_fixed_subtotal_tracks_live_price.2 c2Base "p1"
    { name := "Lamp", price := 3000, stock := 1, categoryId := "c1" } 4500
    { id := "order-0", userId := "alice", items := [{ productId := "p1", quantity := 1 }],
      status := .paid, paymentReference := some "UPI-0" }
    (by decide)

/-! Failure atomicity of checkout and validation of malformed input. -/

theorem addToCart_ok (st : ECommercePlatform) (u pid : String) (q : Int) (p : Product)
    (hp : dictGet st.products pid = some p) (hlt : ¬ p.stock < q) :
    (addToCart st u pid q).1 = .ok ()
    ∧ (addToCart st u pid q).2.products
        = dictSet st.products pid { p with stock := p.stock + -q } := by
  have hns : ¬ p.stock + -q < 0 := by omega
  have hadj : p.adjustStock (-q) = .ok { p with stock := p.stock + -q } := by
    unfold Product.adjustStock
    rw [if_neg hns]
  unfold addToCart
  rcases hgc : getCart { st with products := dictSet st.products pid { p with stock := p.stock + -q } } u with ⟨cart, st2⟩
  have h2 : st2.products = dictSet st.products pid { p with stock := p.stock + -q } := by
    have h3 := congrArg (fun x => x.2.products) hgc
    simpa [getCart_products] using h3.symm
  simp only [hp, if_neg hlt, hadj, hgc]
  exact ⟨by trivial, h2⟩

theorem removeFromCart_stockShift (stA : ECommercePlatform) (u pid : String) (q : Int)
    (p1 : Product) (hp1 : dictGet stA.products pid = some p1)
    (hok : ¬ p1.stock + q < 0) :
    (removeFromCart stA u pid q).1 = .ok ()
    ∧ Option.map Product.stock (dictGet (removeFromCart stA u pid q).2.products pid)
        = some (p1.stock + q) := by
  have hadj : p1.adjustStock q = .ok { p1 with stock := p1.stock + q } := by
    unfold Product.adjustStock
    rw [if_neg hok]
  unfold removeFromCart
  rcases hgc : getCart stA u with ⟨cart, st1⟩
  have h1 : st1.products = stA.products := by
    have h3 := congrArg (fun x => x.2.products) hgc
    simpa [getCart_products] using h3.symm
  simp only [hgc, h1, hp1, hadj]
  exact ⟨by trivial, by simp [dictGet_dictSet_self]⟩

/-- C7: a checkout with an unregistered payment method name fails with
PaymentError and returns the state unchanged: no order is stored, no cart
is cleared or changed, no stock moves and no receipt is recorded. -/
theorem c7_unknown_method_no_mutation (st : ECommercePlatform) (u method : String) (rng : Nat)
    (cart : ShoppingCart)
    (hc : dictGet st.carts u = some cart)
    (hne : cart.isEmpty = false)
    (hm : dictGet st.processor.strategies method = none) :
    checkout st u method rng
      = (.error (.paymentError ("Payment method " ++ method ++ " is not available.")), st) := by
  unfold checkout
  have hgc : getCart st u = (cart, st) := by unfold getCart; rw [hc]
  simp only [hgc]
  simp [hne, PaymentProcessor.payWith, hm]

/-- C7, witness: the unknown method "wallet" on a non-empty concrete
cart. -/
theorem c7_witness :
    checkout (applyOp demoPlatform (.addToCartOp "alice" "p1" 1)) "alice" "wallet" 0
      = (.error (.paymentError "Payment method wallet is not available."),
         applyOp demoPlatform (.addToCartOp "alice" "p1" 1)) :=
  c7_unknown_method_no_mutation (applyOp demoPlatform (.addToCartOp "alice" "p1" 1))
    "alice" "wallet" 0
    { userId := "alice", items := [("p1", { productId := "p1", quantity := 1 })] }
    (by decide) (by decide) (by decide)

/-- C8, counterexample: add_to_cart with the non-positive quantity -3 is
not rejected: it succeeds and raises the stock of the product from 2 to 5,
contrary to the claim that non-positive quantities fail with ValueError
and leave state unchanged. -/
theorem c8_negative_quantity_not_rejected :
    (addToCart demoPlatform "alice" "p1" (-3)).1 = .ok ()
    ∧ Option.map Product.stock (dictGet (addToCart demoPlatform "alice" "p1" (-3)).2.products "p1")
        = some 5 := by
  decide

/-- C8, amended: checkout on an empty cart is rejected with ValueError and
returns the state unchanged; but quantities are not validated: add_to_cart
with any non-positive quantity q on a product in stock succeeds and moves
the stock from s to s - q instead of failing. -/
theorem c8_empty_cart_rejected_quantities_unvalidated :
    (∀ (st : ECommercePlatform) (u method : String) (rng : Nat) (cart : ShoppingCart),
        dictGet st.carts u = some cart → cart.isEmpty = true →
        checkout st u method rng = (.error (.valueError "Cart is empty."), st))
    ∧ (∀ (st : ECommercePlatform) (u pid : String) (q : Int) (p : Product),
        dictGet st.products pid = some p → 0 ≤ p.stock → q ≤ 0 →
        (addToCart st u pid q).1 = .ok ()
        ∧ Option.map Product.stock (dictGet (addToCart st u pid q).2.products pid)
            = some (p.stock - q)) := by
  constructor
  · intro st u method rng cart hc he
    unfold checkout
    have hgc : getCart st u = (cart, st) := by unfold getCart; rw [hc]
    simp only [hgc]
    simp [he]
  · intro st u pid q p hp hnn hq
    have hlt : ¬ p.stock < q := by omega
    rcases addToCart_ok st u pid q p hp hlt with ⟨h1, h2⟩
    refine ⟨h1, ?_⟩
    rw [h2, dictGet_dictSet_self]
    show some (p.stock + -q) = some (p.stock - q)
    rw [Option.some.injEq]
    omega

/-- C8, witness: empty-cart checkout on the demo platform, and add_to_cart
with quantity -3. -/
theorem c8_witness :
    checkout demoPlatform "alice" "upi" 0 = (.error (.valueError "Cart is empty."), demoPlatform)
    ∧ ((addToCart demoPlatform "alice" "p1" (-3)).1 = .ok ()
       ∧ Option.map Product.stock
           (dictGet (addToCart demoPlatform "alice" "p1" (-3)).2.products "p1") = some 5) :=
  ⟨c8_empty_cart_rejected_quantities_unvalidated.1 demoPlatform "alice" "upi" 0
      { userId := "alice", items := [] } (by decide) (by decide),
   c8_empty_cart_rejected_quantities_unvalidated.2 demoPlatform "alice" "p1" (-3)
      demoProduct (by decide) (by decide) (by decide)⟩

/-- C9: for a product in the catalog and a positive quantity not exceeding
its stock, add_to_cart followed immediately by remove_from_cart of the
same quantity succeeds and restores the stock of the product to its prior
value. -/
theorem c9_add_remove_roundtrip (st : ECommercePlatform) (u pid : String) (q : Int) (p : Product)
    (hp : dictGet st.products pid = some p)
    (hq : 0 < q) (hle : q ≤ p.stock) :
    (addToCart st u pid q).1 = .ok ()
    ∧ (removeFromCart (addToCart st u pid q).2 u pid q).1 = .ok ()
    ∧ Option.map Product.stock
        (dictGet (removeFromCart (addToCart st u pid q).2 u pid q).2.products pid)
      = some p.stock := by
  have hlt : ¬ p.stock < q := by omega
  rcases addToCart_ok st u pid q p hp hlt with ⟨h1, h2⟩
  have hp1 : dictGet (addToCart st u pid q).2.products pid
      = some { p with stock := p.stock + -q } := by
    rw [h2, dictGet_dictSet_self]
  have hok : ¬ ({ p with stock := p.stock + -q } : Product).stock + q < 0 := by
    show ¬ (p.stock + -q + q < 0)
    omega
  rcases removeFromCart_stockShift (addToCart st u pid q).2 u pid q _ hp1 hok with ⟨h3, h4⟩
  refine ⟨h1, h3, ?_⟩
  rw [h4, Option.some.injEq]
  show p.stock + -q + q = p.stock
  omega

/-- C9, witness: two units of the demo product round-tripped through the
cart of alice. -/
theorem c9_witness :
    (addToCart demoPlatform "alice" "p1" 2).1 = .ok ()
    ∧ (removeFromCart (addToCart demoPlatform "alice" "p1" 2).2 "alice" "p1" 2).1 = .ok ()
    ∧ Option.map Product.stock
        (dictGet (removeFromCart (addToCart demoPlatform "alice" "p1" 2).2 "alice" "p1" 2).2.products
          "p1")
      = some 2 :=
  c9_add_remove_roundtrip demoPlatform "alice" "p1" 2 demoProduct
    (by decide) (by decide) (by decide)

/-- C10: every order stored by a completed checkout — PAID, FAILED, or
CREATED with a pending payment — carries a payment reference, and the
payment processor holds a receipt stored under that reference, so
get_receipt succeeds on it. -/
theorem c10_every_stored_order_has_receipt (st : ECommercePlatform) (u method : String)
    (rng : Nat) (order : Order) (st' : ECommercePlatform)
    (h : checkout st u method rng = (.ok order, st')) :
    dictGet st'.orders order.id = some order
    ∧ order.paymentReference.isSome = true
    ∧ exceptIsOk (st'.processor.getReceipt (order.paymentReference.getD "")) = true := by
  unfold checkout at h
  rcases hgc : getCart st u with ⟨cart, st0⟩
  simp only [hgc] at h
  split at h
  · simp at h
  · split at h
    · simp at h
    · rename_i receipt proc hpw
      unfold PaymentProcessor.payWith at hpw
      split at hpw
      · simp at hpw
      · rename_i s hs
        simp only [Except.ok.injEq, Prod.mk.injEq] at hpw
        obtain ⟨hrec, hproc⟩ := hpw
        split at h
        · simp only [Prod.mk.injEq, Except.ok.injEq] at h
          obtain ⟨ho, hst'⟩ := h
          subst hst'
          subst ho
          subst hproc
          subst hrec
          refine ⟨?_, ?_, ?_⟩
          · simpa using dictGet_dictSet_self _ _ _
          · simp [Order.markPaid]
          · simp [PaymentProcessor.getReceipt, Order.markPaid, dictGet_dictSet_self, exceptIsOk]
        · split at h
          · simp at h
          · rename_i u1 products1 hr
            simp only [Prod.mk.injEq, Except.ok.injEq] at h
            obtain ⟨ho, hst'⟩ := h
            subst hst'
            subst ho
            subst hproc
            subst hrec
            refine ⟨?_, ?_, ?_⟩
            · simpa using dictGet_dictSet_self _ _ _
            · simp
            · simp [PaymentProcessor.getReceipt, dictGet_dictSet_self, exceptIsOk]
        · simp only [Prod.mk.injEq, Except.ok.injEq] at h
          obtain ⟨ho, hst'⟩ := h
          subst hst'
          subst ho
          subst hproc
          subst hrec
          refine ⟨?_, ?_, ?_⟩
          · simpa using dictGet_dictSet_self _ _ _
          · simp
          · simp [PaymentProcessor.getReceipt, dictGet_dictSet_self, exceptIsOk]

/-- C10, witness: a concrete UPI checkout from the demo platform after one
unit is reserved. -/
def c10Run : Except PlatformError Order × ECommercePlatform :=
  checkout (applyOp demoPlatform (.addToCartOp "alice" "p1" 1)) "alice" "upi" 0

/-- The order stored by the witness checkout. -/
def c10Order : Order :=
  match c10Run.1 with
  | .ok o => o
  | .error _ => fallbackOrder

theorem c10_witness :
    dictGet c10Run.2.orders c10Order.id = some c10Order
    ∧ c10Order.paymentReference.isSome = true
    ∧ exceptIsOk (c10Run.2.processor.getReceipt (c10Order.paymentReference.getD "")) = true :=
  c10_every_stored_order_has_receipt (applyOp demoPlatform (.addToCartOp "alice" "p1" 1))
    "alice" "upi" 0 c10Order c10Run.2 (by decide)

/-! Account lockout: the behaviour of login around the failed-attempt
threshold. -/

theorem login_wrong (as : AuthService) (uname pw : String) (now : Nat) (u : User)
    (hu : dictGet as.users uname = some u) (hact : u.active = true)
    (hlu : u.lockedUntil = none) (hpw : verifyPassword pw u.passwordHash = false) :
    as.login uname pw now
      = (.error (.authenticationError "Invalid credentials."),
         { as with users := dictSet as.users uname (u.registerFailedLogin MAX_FAILED_ATTEMPTS LOCK_DURATION now) }) := by
  unfold AuthService.login
  simp only [hu]
  simp [hact, User.isLocked, hlu, hpw]

theorem login_locked (as : AuthService) (uname pw : String) (now : Nat) (u : User)
    (hu : dictGet as.users uname = some u) (hact : u.active = true)
    (hl : u.isLocked now = true) :
    as.login uname pw now
      = (.error (.authenticationError "Account temporarily locked."), as) := by
  unfold AuthService.login
  simp only [hu]
  simp [hact, hl]

theorem login_correct (as : AuthService) (uname pw : String) (now : Nat) (u : User)
    (hu : dictGet as.users uname = some u) (hact : u.active = true)
    (hl : u.isLocked now = false) (hpw : verifyPassword pw u.passwordHash = true) :
    as.login uname pw now
      = (.ok ("token-" ++ toString as.nextToken),
         { as with
           users := dictSet as.users uname u.resetLock
           sessions := dictSet as.sessions ("token-" ++ toString as.nextToken) u.id
           nextToken := as.nextToken + 1 }) := by
  unfold AuthService.login
  simp only [hu]
  simp [hact, hl, hpw, User.resetLock]

/-- C6: starting from an active user with a clean failure counter and no
lock, exactly MAX_FAILED_ATTEMPTS consecutive wrong-password logins (at
arbitrary times, the last at t5) lock the account; then (a) any login with
the correct password strictly before the lock expiry fails with
AuthenticationError and changes nothing, (b) once the lock duration has
elapsed the correct password logs in and stores a fresh session token for
the user, and (c) after an admin unlock the correct password logs in at
any time. -/
theorem c6_lockout_behaviour (as : AuthService) (uname wrong correct : String) (u : User)
    (t1 t2 t3 t4 t5 : Nat)
    (hu : dictGet as.users uname = some u)
    (hact : u.active = true)
    (hfa : u.failedAttempts = 0)
    (hlu : u.lockedUntil = none)
    (hw : verifyPassword wrong u.passwordHash = false)
    (hc : verifyPassword correct u.passwordHash = true)
    (as5 : AuthService) (h5 : as5 = loginRun as uname wrong [t1, t2, t3, t4, t5]) :
    (∀ t, t < t5 + LOCK_DURATION →
        as5.login uname correct t
          = (.error (.authenticationError "Account temporarily locked."), as5))
    ∧ (∀ t, t5 + LOCK_DURATION ≤ t →
        (as5.login uname correct t).1 = .ok ("token-" ++ toString as5.nextToken)
        ∧ dictGet (as5.login uname correct t).2.sessions ("token-" ++ toString as5.nextToken)
            = some u.id)
    ∧ (∀ admin : User, admin.role = "admin" →
        ∀ as6, as5.unlockUser uname admin = .ok as6 →
        ∀ t, (as6.login uname correct t).1 = .ok ("token-" ++ toString as6.nextToken)) := by
  subst h5
  have hreg1 : u.registerFailedLogin MAX_FAILED_ATTEMPTS LOCK_DURATION t1
      = { u with failedAttempts := 1 } := by
    unfold User.registerFailedLogin
    rw [hfa]
    exact rfl
  have e1 := login_wrong as uname wrong t1 u hu hact hlu hw
  rw [hreg1] at e1
  have hu1 : dictGet (as.login uname wrong t1).2.users uname
      = some { u with failedAttempts := 1 } := by
    rw [e1]
    exact (dictGet_dictSet_self _ _ _).trans rfl
  have e2 := login_wrong (as.login uname wrong t1).2 uname wrong t2
    { u with failedAttempts := 1 } hu1 hact hlu hw
  have hu2 : dictGet ((as.login uname wrong t1).2.login uname wrong t2).2.users uname
      = some { u with failedAttempts := 2 } := by
    rw [e2]
    exact (dictGet_dictSet_self _ _ _).trans rfl
  have e3 := login_wrong ((as.login uname wrong t1).2.login uname wrong t2).2 uname wrong t3
    { u with failedAttempts := 2 } hu2 hact hlu hw
  have hu3 : dictGet (((as.login uname wrong t1).2.login uname wrong t2).2.login uname
        wrong t3).2.users uname
      = some { u with failedAttempts := 3 } := by
    rw [e3]
    exact (dictGet_dictSet_self _ _ _).trans rfl
  have e4 := login_wrong (((as.login uname wrong t1).2.login uname wrong t2).2.login uname
      wrong t3).2 uname wrong t4
    { u with failedAttempts := 3 } hu3 hact hlu hw
  have hu4 : dictGet ((((as.login uname wrong t1).2.login uname wrong t2).2.login uname
        wrong t3).2.login uname wrong t4).2.users uname
      = some { u with failedAttempts := 4 } := by
    rw [e4]
    exact (dictGet_dictSet_self _ _ _).trans rfl
  have e5 := login_wrong ((((as.login uname wrong t1).2.login uname wrong t2).2.login uname
      wrong t3).2.login uname wrong t4).2 uname wrong t5
    { u with failedAttempts := 4 } hu4 hact hlu hw
  have hu5 : dictGet (loginRun as uname wrong [t1, t2, t3, t4, t5]).users uname
      = some { u with failedAttempts := 0, lockedUntil := some (t5 + LOCK_DURATION) } := by
    simp only [loginRun, List.foldl]
    rw [e5]
    exact (dictGet_dictSet_self _ _ _).trans rfl
  refine ⟨?_, ?_, ?_⟩
  · intro t ht
    exact login_locked _ uname correct t
      { u with failedAttempts := 0, lockedUntil := some (t5 + LOCK_DURATION) }
      hu5 hact (by simp [User.isLocked]; omega)
  · intro t ht
    have e := login_correct _ uname correct t
      { u with failedAttempts := 0, lockedUntil := some (t5 + LOCK_DURATION) }
      hu5 hact (by simp [User.isLocked]; omega) hc
    constructor
    · rw [e]
    · rw [e]
      exact (dictGet_dictSet_self _ _ _).trans rfl
  · intro admin hadm as6 h6 t
    have h6' : as6
        = { loginRun as uname wrong [t1, t2, t3, t4, t5] with
            users := dictSet (loginRun as uname wrong [t1, t2, t3, t4, t5]).users uname ({ u with failedAttempts := 0, lockedUntil := some (t5 + LOCK_DURATION) } : User).resetLock } := by
      unfold AuthService.unlockUser at h6
      rw [if_neg (by simp [hadm])] at h6
      simp only [hu5] at h6
      simp only [Except.ok.injEq] at h6
      exact h6.symm
    rw [h6']
    have e := login_correct
      { loginRun as uname wrong [t1, t2, t3, t4, t5] with users := dictSet (loginRun as uname wrong [t1, t2, t3, t4, t5]).users uname ({ u with failedAttempts := 0, lockedUntil := some (t5 + LOCK_DURATION) } : User).resetLock }
      uname correct t
      (({ u with failedAttempts := 0, lockedUntil := some (t5 + LOCK_DURATION) } : User).resetLock)
      (by exact (dictGet_dictSet_self _ _ _).trans rfl) hact rfl hc
    rw [e]

/-- A concrete customer user with a known password, as bootstrap registers
alice. -/
def aliceUser : User :=
  { username := "alice", fullName := "Alice Customer",
    passwordHash := hashPassword "password" "s1", active := true,
    failedAttempts := 0, lockedUntil := none, id := "uid-alice", role := "customer" }

/-- A concrete admin user. -/
def adminDemoUser : User :=
  { username := "admin", fullName := "Admin User",
    passwordHash := hashPassword "admin123" "s2", active := true,
    failedAttempts := 0, lockedUntil := none, id := "uid-admin", role := "admin" }

/-- A concrete auth service holding alice and the admin. -/
def authDemo : AuthService :=
  { users := [("alice", aliceUser), ("admin", adminDemoUser)], sessions := [], nextToken := 0 }

/-- The auth state after five consecutive wrong-password logins for
alice, all at time 0. -/
def authDemo5 : AuthService := loginRun authDemo "alice" "badpw" [0, 0, 0, 0, 0]

/-- The auth state after the admin unlocks alice. -/
def authDemo6 : AuthService :=
  match authDemo5.unlockUser "alice" adminDemoUser with
  | .ok a => a
  | .error _ => authDemo5

/-- C6, witness: alice locked out at time 5, logging in at time 20 after
the fifteen-minute lock expired, and logging in right after an admin
unlock. -/
theorem c6_witness :
    authDemo5.login "alice" "password" 5
      = (.error (.authenticationError "Account temporarily locked."), authDemo5)
    ∧ ((authDemo5.login "alice" "password" 20).1 = .ok ("token-" ++ toString authDemo5.nextToken)
       ∧ dictGet (authDemo5.login "alice" "password" 20).2.sessions
           ("token-" ++ toString authDemo5.nextToken) = some aliceUser.id)
    ∧ (authDemo6.login "alice" "password" 3).1 = .ok ("token-" ++ toString authDemo6.nextToken) :=
  ⟨(c6_lockout_behaviour authDemo "alice" "badpw" "password" aliceUser 0 0 0 0 0
      (by decide) (by decide) (by decide) (by decide) (by decide) (by decide)
      authDemo5 rfl).1 5 (by decide),
   (c6_lockout_behaviour authDemo "alice" "badpw" "password" aliceUser 0 0 0 0 0
      (by decide) (by decide) (by decide) (by decide) (by decide) (by decide)
      authDemo5 rfl).2.1 20 (by decide),
   (c6_lockout_behaviour authDemo "alice" "badpw" "password" aliceUser 0 0 0 0 0
      (by decide) (by decide) (by decide) (by decide) (by decide) (by decide)
      authDemo5 rfl).2.2 adminDemoUser rfl authDemo6 (by decide) 3⟩

end ECommerce
